import Mathlib

/-!
Verification of the LPC5500-family bring-up and reset-management code
(pyocd/target/family/target_lpc5500.py) against its specification.

The Python module is shallowly embedded: each method becomes a Lean
function over an explicit environment (the results that the hardware
and the delegates would return) and an explicit core state, producing a
result together with a trace of the externally visible actions (register
writes, halts, notifications, ...).  Machine words are Nat with explicit
masking where the code masks.
-/

namespace LPC5500

/-! ## Register addresses and constants (module-level constants of the source) -/

def FPB_CTRL : Nat := 0xE0002000
def FPB_COMP0 : Nat := 0xE0002008
def DWT_COMP0 : Nat := 0xE0001020
def DWT_FUNCTION0 : Nat := 0xE0001028

def PERIPHERAL_BASE_NS : Nat := 0x40000000
def PERIPHERAL_BASE_S : Nat := 0x50000000

def FLASH_CMD : Nat := 0x00034000
def FLASH_STARTA : Nat := 0x00034010
def FLASH_STOPA : Nat := 0x00034014
def FLASH_DATAW0 : Nat := 0x00034080
def FLASH_INT_STATUS : Nat := 0x00034FE0
def FLASH_INT_CLR_STATUS : Nat := 0x00034FE8
def FLASH_CMD_MARGIN_CHECK : Nat := 0x6

def BOOTROM_MAGIC_ADDR : Nat := 0x50000040

/-- Constants of the CortexM base class (outside this module; standard
ARMv7/8-M debug register addresses and bits, referenced by the source). -/
def CortexM.DEMCR : Nat := 0xE000EDFC

def CortexM.DEMCR_VC_CORERESET : Nat := 0x00000001

def CortexM.DHCSR : Nat := 0xE000EDF0

def CortexM.S_RESET_ST : Nat := 0x02000000

/-! ## Basic types -/

/-- The reset types named by the source (Target.ResetType members that the
family code mentions). -/
inductive ResetType where
  | hw
  | sw
  | sw_sysresetreq
  | sw_vectreset
  | sw_emulated
deriving DecidableEq, Repr

/-- Session events broadcast by the reset sequencer. -/
inductive SessionEvent where
  | preReset
  | postReset
deriving DecidableEq, Repr

/-- The transport-error kinds of the specification: fault-class
(TransferFaultError), timeout-class (TransferTimeoutError), and any other
transport error. -/
inductive ErrKind where
  | fault
  | timeoutErr
  | other
deriving DecidableEq, Repr

/-- Externally visible actions performed by the embedded methods. -/
inductive Ev where
  | write32 (addr val : Nat)
  | writeBlock32 (addr : Nat) (vals : List Nat)
  | read32 (addr val : Nat)
  | halt
  | setWatchpoint (addr size : Nat)
  | probe (addr length : Nat)
  | rawRead8 (addr size : Nat)
  | rawRead32 (addr size : Nat)
  | performReset (rt : ResetType)
  | resync
  | didResetCall (rt : ResetType)
  | notifyEvent (e : SessionEvent)
  | writeReg (offset val : Nat)
  | readReg (offset : Nat)
deriving DecidableEq, Repr

/-! ## Flash-aware memory read layer

`is_flash_addr`, `read_memory_block8` and `read_memory_block32` from the
source.  The memory map (get_region_for_address / contains_range) and the
raw AP access are external collaborators, so they are fields of the
environment; the margin-check probe `is_flash_erased` is modelled in detail
further below and abstracted to its boolean outcome here, exactly as the
read layer consumes it. -/

/-- A memory region as seen through the memory-map interface: a flash kind
tag and a range-containment test (the map's contains_range). -/
structure Region where
  is_flash : Bool
  containsRange : Nat → Nat → Bool

structure ReadEnv where
  /-- get_region_for_address of the memory map. -/
  regionFor : Nat → Option Region
  /-- Outcome of the is_flash_erased margin-check probe on (addr, length). -/
  probeErased : Nat → Nat → Bool
  /-- self.ap.read_memory_block8. -/
  apReadBlock8 : Nat → Nat → List Nat
  /-- self.ap.read_memory_block32. -/
  apReadBlock32 : Nat → Nat → List Nat
  /-- self.bp_manager.filter_memory_unaligned_8. -/
  filter8 : Nat → Nat → List Nat → List Nat

/-- CortexM_LPC5500.is_flash_addr: region lookup for addr; False when no
region or a non-flash region; otherwise the region's range containment. -/
def is_flash_addr (env : ReadEnv) (addr length : Nat) : Bool :=
  match env.regionFor addr with
  | none => false
  | some region => if !region.is_flash then false else region.containsRange addr length

structure ReadOut where
  data : List Nat
  trace : List Ev
deriving Repr

/-- CortexM_LPC5500.read_memory_block8. -/
def read_memory_block8 (env : ReadEnv) (addr size : Nat) : ReadOut :=
  if is_flash_addr env addr size then
    if env.probeErased addr size then
      { data := List.replicate size 0xFF, trace := [.probe addr size] }
    else
      { data := env.filter8 addr size (env.apReadBlock8 addr size),
        trace := [.probe addr size, .rawRead8 addr size] }
  else
    { data := env.filter8 addr size (env.apReadBlock8 addr size),
      trace := [.rawRead8 addr size] }

/-- CortexM_LPC5500.read_memory_block32 (no breakpoint filtering on the
32-bit path in the source). -/
def read_memory_block32 (env : ReadEnv) (addr size : Nat) : ReadOut :=
  if is_flash_addr env addr (size * 4) then
    if env.probeErased addr (size * 4) then
      { data := List.replicate size 0xFFFFFFFF, trace := [.probe addr (size * 4)] }
    else
      { data := env.apReadBlock32 addr size, trace := [.probe addr (size * 4), .rawRead32 addr size] }
  else
    { data := env.apReadBlock32 addr size, trace := [.rawRead32 addr size] }

/-! ## The margin-check probe (is_flash_erased) in detail

The probe programs the flash controller, issues a margin-check command,
then polls FLASH_INT_STATUS for the done bit (0x4) under a 5 second
wall-clock Timeout, and finally decides erasure from a fresh status read
masked with 0xB.  In the embedding the successive FLASH_INT_STATUS read
values are an oracle stream indexed by read count, and the wall-clock
bound becomes the number of loop iterations the Timeout grants. -/

structure ProbeEnv where
  /-- Whether get_security_state() returned SECURE (selects the peripheral
  alias used as base address). -/
  secure : Bool
  /-- Successive values read from base + FLASH_INT_STATUS, indexed by how
  many such reads happened before. -/
  intStatus : Nat → Nat
  /-- How many iterations the 5.0 s Timeout allows (t_o.check() returns
  true exactly this many times). -/
  maxPolls : Nat

/-- Errors the specification says the probe can surface. -/
inductive ProbeError where
  | probeTimeout
deriving DecidableEq, Repr

/-- The wait loop of is_flash_erased: starting at status-read index i with
the given iteration budget, read FLASH_INT_STATUS until bit 0x4 is set or
the budget runs out.  Returns the index of the next (unconsumed) status
read and whether the done bit was observed. -/
def waitDone (intStatus : Nat → Nat) : Nat → Nat → Nat × Bool
  | i, 0 => (i, false)
  | i, fuel + 1 =>
    if (intStatus i &&& 0x00000004) ≠ 0 then (i + 1, true)
    else waitDone intStatus (i + 1) fuel

structure ProbeOut where
  /-- The value is_flash_erased returns (True means erased).  The Except
  layer records whether any fatal error was raised on the way. -/
  result : Except ProbeError Bool
  /-- Whether the wait loop exhausted its bound without seeing done. -/
  timedOut : Bool
  trace : List Ev
deriving Repr

/-- CortexM_LPC5500.is_flash_erased.  The five controller writes happen
first; then the wait loop; then one more FLASH_INT_STATUS read whose value
masked with 0xB decides the result: 0 means not erased (False), anything
else erased (True).  The source raises nothing on its own: the Except
layer exists to express what the specification claims about timeouts. -/
def is_flash_erased (env : ProbeEnv) (addr length : Nat) : ProbeOut :=
  let base := if env.secure then PERIPHERAL_BASE_S else PERIPHERAL_BASE_NS
  let writes : List Ev :=
    [ .write32 (base + FLASH_STARTA) (addr >>> 4),
      .write32 (base + FLASH_STOPA) ((addr + length - 1) >>> 4),
      .writeBlock32 (base + FLASH_DATAW0) (List.replicate 8 0),
      .write32 (base + FLASH_INT_CLR_STATUS) 0x0000000F,
      .write32 (base + FLASH_CMD) FLASH_CMD_MARGIN_CHECK ]
  let w := waitDone env.intStatus 0 env.maxPolls
  let finalStatus := env.intStatus w.fst
  { result := .ok (!((finalStatus &&& 0xB) == 0)),
    timedOut := !w.snd,
    trace := writes ++ [.read32 ((if env.secure then PERIPHERAL_BASE_S else PERIPHERAL_BASE_NS) + FLASH_INT_STATUS) finalStatus] }

/-! ## Core state and the reset-catch state machine -/

/-- The mutable per-core attributes the family code touches.
resetCatchMode follows the source's numeric encoding: 0 none,
1 breakpoint, 2 watchpoint. -/
structure CoreState where
  flashErased : Bool
  resetCatchMode : Nat
  savedDemcr : Nat
  delegateResult : Bool
  runToken : Nat
deriving DecidableEq, Repr

/-- A freshly created CortexM_LPC5500: the class attribute _flash_erased
is True.  The reset-catch attributes are only assigned by
set_reset_catch; their initial values below are immaterial placeholders. -/
def initialCoreState : CoreState :=
  { flashErased := true
    resetCatchMode := 0
    savedDemcr := 0
    delegateResult := false
    runToken := 0 }

structure CatchEnv where
  /-- Truthiness of call_delegate('set_reset_catch', ...). -/
  delegateHandled : Bool
  /-- Value returned by read_memory(CortexM.DEMCR). -/
  demcrValue : Nat
  /-- Value returned by read32(0x00000004), the reset-vector slot. -/
  resetVector : Nat
  /-- Value returned by the final read32(CortexM.DHCSR) (discarded). -/
  dhcsrValue : Nat

/-- CortexM_LPC5500.set_reset_catch.  DEMCR values are 32-bit reads, so
clearing DEMCR_VC_CORERESET is masking with 0xFFFFFFFE. -/
def set_reset_catch (env : CatchEnv) (s : CoreState) : CoreState × List Ev :=
  let s0 := { s with resetCatchMode := 0, delegateResult := env.delegateHandled }
  if env.delegateHandled then
    (s0, [])
  else
    let saved := env.demcrValue
    let s1 := { s0 with savedDemcr := saved }
    let head : List Ev :=
      [ .halt,
        .read32 CortexM.DEMCR saved,
        .write32 CortexM.DEMCR (saved &&& 0xFFFFFFFE),
        .read32 0x00000004 env.resetVector ]
    if env.resetVector ≠ 0xFFFFFFFF then
      ({ s1 with flashErased := false, resetCatchMode := 1 },
       head ++ [ .write32 FPB_COMP0 (env.resetVector ||| 1),
                 .write32 FPB_CTRL 0x00000003,
                 .read32 CortexM.DHCSR env.dhcsrValue ])
    else
      ({ s1 with flashErased := true, resetCatchMode := 2 },
       head ++ [ .setWatchpoint BOOTROM_MAGIC_ADDR 4,
                 .read32 CortexM.DHCSR env.dhcsrValue ])

/-- CortexM_LPC5500.clear_reset_catch.  The clear_reset_catch delegate is
called but its result is discarded; the guard re-uses the result saved by
set_reset_catch. -/
def clear_reset_catch (s : CoreState) : CoreState × List Ev :=
  if s.delegateResult then
    (s, [])
  else
    let comparatorClears : List Ev :=
      if s.resetCatchMode == 1 then [.write32 0xE0002008 0]
      else if s.resetCatchMode == 2 then [.write32 DWT_COMP0 0, .write32 DWT_FUNCTION0 0]
      else []
    (s, comparatorClears ++ [.write32 CortexM.DEMCR s.savedDemcr])

/-! ## The reset sequencer -/

/-- Modelled from the spec: the exception-class hierarchy of
pyocd.core.exceptions is not part of the excerpt; only its users are.  The
specification's reset sequencer (4.5 step 7) documents the class retried
by the reset-exit poll, the one the source catches as
exceptions.TransferError, as the fault class; the other polling loops name
their class explicitly in the source. -/
def TransferError.catches (k : ErrKind) : Bool := k == .fault

/-- Result of one read32(CortexM.DHCSR) attempt in the reset-exit poll. -/
inductive DhcsrResult where
  | ok (v : Nat)
  | raise (k : ErrKind)
deriving DecidableEq, Repr

/-- How the reset-exit poll loop ended when no error escaped it. -/
inductive PollEnd where
  | cleared
  | timedOut
deriving DecidableEq, Repr

/-- The DHCSR wait loop at the end of CortexM_LPC5500.reset: under a 2.0 s
Timeout, read DHCSR; break once S_RESET_ST is clear; a caught transport
error flushes, sleeps and retries; an uncaught one propagates.  fuel is
the number of iterations the Timeout grants; when it runs out the loop
exits normally (PollEnd.timedOut). -/
def resetWaitLoop (reads : Nat → DhcsrResult) : Nat → Nat → Except ErrKind PollEnd
  | _, 0 => .ok .timedOut
  | i, fuel + 1 =>
    match reads i with
    | .ok v => if v &&& CortexM.S_RESET_ST == 0 then .ok .cleared else resetWaitLoop reads (i + 1) fuel
    | .raise k => if TransferError.catches k then resetWaitLoop reads (i + 1) fuel else .error k

/-- Errors the specification says a reset can surface.  The transferErr
side is what an uncaught transport error from the poll becomes; the
resetTimeout side exists to express the specification's claim and is
never produced by the source. -/
inductive ResetError where
  | transferErr (k : ErrKind)
  | resetTimeout
deriving DecidableEq, Repr

/-- Modelled from the source docstring of CortexM_LPC5500.reset (the body
of CortexM._get_actual_reset_type is outside the excerpt): a non-None
reset_type parameter overrides the session option and the core default;
None falls back to the option, then to the default; VECTRESET falls back
to the emulated software reset on cores that do not support it (this
family's v8-M cores do not). -/
def _get_actual_reset_type (optionVal : Option ResetType) (defaultType : ResetType)
    (reset_type : Option ResetType) : ResetType :=
  let rt :=
    match reset_type with
    | none =>
      match optionVal with
      | none => defaultType
      | some o => o
    | some rt => rt
  if rt = .sw_vectreset then .sw_emulated else rt

structure ResetEnv where
  /-- The session's reset_type option ('default'/unset modelled as none). -/
  optionResetType : Option ResetType
  /-- The core's default_reset_type. -/
  defaultResetType : ResetType
  /-- Truthiness of call_delegate('will_reset', ...). -/
  willResetHandled : Bool
  /-- Successive outcomes of the DHCSR reads of the reset-exit poll. -/
  dhcsrReads : Nat → DhcsrResult
  /-- Iterations granted by the 2.0 s Timeout of the reset-exit poll. -/
  pollBudget : Nat

structure ResetOut where
  result : Except ResetError PollEnd
  state : CoreState
  trace : List Ev
deriving Repr

/-- CortexM_LPC5500.reset.  The reset_type argument is part of the model
precisely because the source accepts it; the body overwrites it with
SW_EMULATED before resolving the actual type.  The DHCSR poll's individual
reads are modelled by resetWaitLoop and are not recorded as trace
events; the macro-level actions are. -/
def reset (env : ResetEnv) (s : CoreState) (reset_type : Option ResetType) : ResetOut :=
  let rt0 : ResetType := .sw_emulated
  let rt := _get_actual_reset_type env.optionResetType env.defaultResetType (some rt0)
  let s1 := { s with runToken := s.runToken + 1 }
  let pre : List Ev :=
    [.notifyEvent .preReset]
    ++ (if env.willResetHandled then [] else [.performReset rt])
    ++ (if s1.flashErased then [.resync] else [])
    ++ [.halt, .didResetCall rt]
  match resetWaitLoop env.dhcsrReads 0 env.pollBudget with
  | .error k => { result := .error (.transferErr k), state := s1, trace := pre }
  | .ok e => { result := .ok e, state := s1, trace := pre ++ [.notifyEvent .postReset] }

/-! ## The AP resynchronization protocol -/

/-- Result of one AP register read attempt. -/
inductive RegResult where
  | ok (v : Nat)
  | raise (k : ErrKind)
deriving DecidableEq, Repr

/-- The shape shared by the three polling loops of resynchronize_dm_ap /
start_debug_session: starting at read index i with the given fuel, read;
a successful read satisfying done ends the loop, reporting the total
number of reads consumed; an error of the retried class is swallowed and
the loop continues; any other error propagates.  none means the fuel ran
out (the source loops are unbounded; fuel is a model artifact).
Both sides report how many reads the loop consumed: .ok n means done
after n reads, .error (n, k) means the n-th read raised the uncaught k. -/
def pollReg (reads : Nat → RegResult) (retried : ErrKind → Bool) (done : Nat → Bool) :
    Nat → Nat → Option (Except (Nat × ErrKind) Nat)
  | _, 0 => none
  | i, fuel + 1 =>
    match reads i with
    | .ok v => if done v then some (.ok (i + 1)) else pollReg reads retried done (i + 1) fuel
    | .raise k => if retried k then pollReg reads retried done (i + 1) fuel else some (.error (i + 1, k))

/-- The await-quiescent loop of resynchronize_dm_ap: reads of AP register
0xFC, TransferFaultError retried, done at the sentinel 0x002A0000. -/
def awaitQuiescent (reads : Nat → RegResult) : Nat → Nat → Option (Except (Nat × ErrKind) Nat) :=
  pollReg reads (fun k => k == .fault) (fun v => v == 0x002A0000)

/-- The await-ack loop of resynchronize_dm_ap: reads of AP register 0x00,
TransferTimeoutError retried, done at zero. -/
def awaitAck (reads : Nat → RegResult) : Nat → Nat → Option (Except (Nat × ErrKind) Nat) :=
  pollReg reads (fun k => k == .timeoutErr) (fun v => v == 0)

/-- The await-session-ready loop of start_debug_session: reads of AP
register 0x08 masked to the low 16 bits, TransferTimeoutError retried,
done at zero. -/
def awaitSessionReady (reads : Nat → RegResult) : Nat → Nat → Option (Except (Nat × ErrKind) Nat) :=
  pollReg reads (fun k => k == .timeoutErr) (fun v => (v &&& 0xFFFF) == 0)

structure ResyncEnv where
  /-- Successive outcomes of the reads of AP register 0xFC. -/
  statusReads : Nat → RegResult
  /-- Successive outcomes of the reads of AP register 0x00. -/
  ackReads : Nat → RegResult
  /-- Successive outcomes of the reads of AP register 0x08. -/
  sessionReads : Nat → RegResult

structure ResyncOut where
  /-- some (.ok ()) on completion, some (.error k) when a loop aborted,
  none when a fuel bound of the model ran out. -/
  result : Option (Except ErrKind Unit)
  trace : List Ev
deriving Repr

/-- LPC5500Family.start_debug_session: write START_DBG_SESSION (0x07) to
the request register 0x04, then poll register 0x08 (low 16 bits) to zero. -/
def start_debug_session (env : ResyncEnv) (fuel : Nat) : ResyncOut :=
  match awaitSessionReady env.sessionReads 0 fuel with
  | none =>
    { result := none,
      trace := .writeReg 0x04 0x07 :: List.replicate fuel (.readReg 0x08) }
  | some (.error e) =>
    { result := some (.error e.snd),
      trace := .writeReg 0x04 0x07 :: List.replicate e.fst (.readReg 0x08) }
  | some (.ok n) =>
    { result := some (.ok ()),
      trace := .writeReg 0x04 0x07 :: List.replicate n (.readReg 0x08) }

/-- LPC5500Family.resynchronize_dm_ap: poll AP register 0xFC to the
quiescent sentinel tolerating faults, write RESYNC_REQ + CHIP_RESET_REQ
(0x21) to register 0x00, poll register 0x00 to zero tolerating timeouts,
then start the debug session.  The recorded trace holds one readReg event
per read attempt (caught errors included) and every register write. -/
def resynchronize_dm_ap (env : ResyncEnv) (fuel1 fuel2 fuel3 : Nat) : ResyncOut :=
  match awaitQuiescent env.statusReads 0 fuel1 with
  | none => { result := none, trace := List.replicate fuel1 (.readReg 0xFC) }
  | some (.error e) =>
    { result := some (.error e.snd), trace := List.replicate e.fst (.readReg 0xFC) }
  | some (.ok n1) =>
    let t1 : List Ev := List.replicate n1 (.readReg 0xFC) ++ [.writeReg 0x00 0x21]
    match awaitAck env.ackReads 0 fuel2 with
    | none => { result := none, trace := t1 ++ List.replicate fuel2 (.readReg 0x00) }
    | some (.error e) =>
      { result := some (.error e.snd), trace := t1 ++ List.replicate e.fst (.readReg 0x00) }
    | some (.ok n2) =>
      let rest := start_debug_session env fuel3
      { result := rest.result, trace := t1 ++ List.replicate n2 (.readReg 0x00) ++ rest.trace }

/-! ## Derived predicates -/

/-- One reset-exit poll step that keeps the loop going: a successful
DHCSR read with S_RESET_ST still set, or an error of the class the loop
catches. -/
def stuckStep : DhcsrResult → Bool
  | .ok v => !(v &&& CortexM.S_RESET_ST == 0)
  | .raise k => TransferError.catches k

/-- One AP polling step that keeps a pollReg loop going: a successful
read not satisfying done, or an error of the retried class. -/
def continuesStep (retried : ErrKind → Bool) (done : Nat → Bool) : RegResult → Bool
  | .ok v => !done v
  | .raise k => retried k

/-- Recognizer for writes to the DM command register (offset 0x00). -/
def isCmdWrite : Ev → Bool
  | .writeReg 0x00 _ => true
  | _ => false

/-! ## Concrete instances used by the witnesses -/

/-- A flash region shaped like the LPC5516 nsflash region (start 0,
length 0x3D000): range containment per the memory-map interface. -/
def flashRegion0 : Region :=
  { is_flash := true
    containsRange := fun a l => decide (a + l ≤ 0x3D000) }

/-- A read environment over flashRegion0 whose probe always reports
erased and whose raw reads return zero bytes. -/
def readEnvErased : ReadEnv :=
  { regionFor := fun a => if a < 0x3D000 then some flashRegion0 else none
    probeErased := fun _ _ => true
    apReadBlock8 := fun _ n => List.replicate n 0
    apReadBlock32 := fun _ n => List.replicate n 0
    filter8 := fun _ _ d => d }

/-- A probe environment whose controller never raises the done bit:
every FLASH_INT_STATUS read returns 0, and the 5 s bound grants three
poll iterations. -/
def probeEnvStuck : ProbeEnv :=
  { secure := false
    intStatus := fun _ => 0
    maxPolls := 3 }

/-- A reset environment whose core never leaves reset: every DHCSR read
returns S_RESET_ST set, and the 2 s bound grants two poll iterations. -/
def resetEnvStuck : ResetEnv :=
  { optionResetType := none
    defaultResetType := .sw_sysresetreq
    willResetHandled := false
    dhcsrReads := fun _ => .ok CortexM.S_RESET_ST
    pollBudget := 2 }

/-- A resynchronization environment that reaches the quiescent sentinel
on the third status read after two faults, acknowledges the resync
request on the second command-register read, and reports the session
ready immediately. -/
def resyncEnvOk : ResyncEnv :=
  { statusReads := fun i => if i < 2 then .raise .fault else .ok 0x002A0000
    ackReads := fun i => if i = 0 then .ok 5 else .ok 0
    sessionReads := fun _ => .ok 0 }

/-! ## C1: flash-aware block reads -/

/-- Claim C1: for a read whose range lies entirely in a flash-typed
region, a probe reporting erased makes the block read return exactly the
requested number of 0xFF bytes (0xFFFFFFFF words for the 32-bit variant)
with no raw access; a probe reporting not erased makes it return the raw
access's bytes unmodified aside from breakpoint filtering; and when no
region covers the address or the region is not flash-typed, the raw
access is performed and the probe is never invoked. -/
theorem claim_C1 (env : ReadEnv) (addr size : Nat) :
    (∀ r, env.regionFor addr = some r → r.is_flash = true →
      r.containsRange addr size = true →
      (env.probeErased addr size = true →
        read_memory_block8 env addr size
          = { data := List.replicate size 0xFF, trace := [.probe addr size] }) ∧
      (env.probeErased addr size = false →
        read_memory_block8 env addr size
          = { data := env.filter8 addr size (env.apReadBlock8 addr size),
              trace := [.probe addr size, .rawRead8 addr size] })) ∧
    (∀ r, env.regionFor addr = some r → r.is_flash = true →
      r.containsRange addr (size * 4) = true →
      env.probeErased addr (size * 4) = true →
      read_memory_block32 env addr size
        = { data := List.replicate size 0xFFFFFFFF, trace := [.probe addr (size * 4)] }) ∧
    ((env.regionFor addr = none ∨ ∃ r, env.regionFor addr = some r ∧ r.is_flash = false) →
      (read_memory_block8 env addr size).trace = [.rawRead8 addr size] ∧
      (read_memory_block32 env addr size).trace = [.rawRead32 addr size]) := by
  refine ⟨fun r hr hf hc => ⟨fun hp => ?_, fun hp => ?_⟩, fun r hr hf hc hp => ?_, fun hnf => ?_⟩
  · simp [read_memory_block8, is_flash_addr, hr, hf, hc, hp]
  · simp [read_memory_block8, is_flash_addr, hr, hf, hc, hp]
  · simp [read_memory_block32, is_flash_addr, hr, hf, hc, hp]
  · rcases hnf with h | ⟨r, hr, hf⟩
    · simp [read_memory_block8, read_memory_block32, is_flash_addr, h]
    · simp [read_memory_block8, read_memory_block32, is_flash_addr, hr, hf]

/-- Witness for C1: on the concrete erased-flash environment, a 512-byte
read at 0 returns 512 bytes of 0xFF with only the probe in its trace. -/
theorem claim_C1_witness :
    read_memory_block8 readEnvErased 0 0x200
      = { data := List.replicate 0x200 0xFF, trace := [.probe 0 0x200] } :=
  (((claim_C1 readEnvErased 0 0x200).1 flashRegion0 rfl rfl (by decide)).1) rfl

/-! ## C2: reset-catch mode selection -/

/-- Claim C2: in a reset-catch activation the delegate does not handle,
a reset-vector slot reading 0xFFFFFFFF selects mode 2 (WATCHPOINT), no
breakpoint comparator (FPB_COMP0) write happens and a watchpoint is armed
on the boot-ROM magic address; any other value V selects mode 1
(BREAKPOINT), FPB_COMP0 is programmed with V ||| 1 and the breakpoint
unit is enabled via FPB_CTRL. -/
theorem claim_C2 (env : CatchEnv) (s : CoreState) (hd : env.delegateHandled = false) :
    (env.resetVector = 0xFFFFFFFF →
      (set_reset_catch env s).fst.resetCatchMode = 2 ∧
      (∀ v, Ev.write32 FPB_COMP0 v ∉ (set_reset_catch env s).snd) ∧
      Ev.setWatchpoint BOOTROM_MAGIC_ADDR 4 ∈ (set_reset_catch env s).snd) ∧
    (env.resetVector ≠ 0xFFFFFFFF →
      (set_reset_catch env s).fst.resetCatchMode = 1 ∧
      Ev.write32 FPB_COMP0 (env.resetVector ||| 1) ∈ (set_reset_catch env s).snd ∧
      Ev.write32 FPB_CTRL 0x00000003 ∈ (set_reset_catch env s).snd) := by
  constructor
  · intro hv
    refine ⟨?_, fun v => ?_, ?_⟩ <;>
      simp [set_reset_catch, hd, hv, FPB_COMP0, CortexM.DEMCR]
  · intro hv
    refine ⟨?_, ?_, ?_⟩ <;>
      simp [set_reset_catch, hd, hv]

/-- Witness for C2: with the vector slot reading 0x1000, activation ends
in mode 1 and programs the comparator with 0x1000 ||| 1. -/
theorem claim_C2_witness :
    (set_reset_catch ⟨false, 0x12345678, 0x1000, 0⟩ initialCoreState).fst.resetCatchMode = 1 ∧
    Ev.write32 FPB_COMP0 (0x1000 ||| 1)
      ∈ (set_reset_catch ⟨false, 0x12345678, 0x1000, 0⟩ initialCoreState).snd :=
  ⟨((claim_C2 ⟨false, 0x12345678, 0x1000, 0⟩ initialCoreState rfl).2 (by decide)).1,
   ((claim_C2 ⟨false, 0x12345678, 0x1000, 0⟩ initialCoreState rfl).2 (by decide)).2.1⟩

/-! ## C8: activation immediately followed by release -/

/-- Claim C8: for an activation immediately followed by a release
(neither handled by the delegate), the DEMCR value saved at activation is
the one written back at release, and the comparator armed at activation
is the one cleared: the FPB comparator in mode 1, the DWT comparator and
function register in mode 2; in both cases the release trace ends with
the verbatim DEMCR restore. -/
theorem claim_C8 (env : CatchEnv) (s : CoreState) (hd : env.delegateHandled = false) :
    (set_reset_catch env s).fst.savedDemcr = env.demcrValue ∧
    (env.resetVector ≠ 0xFFFFFFFF →
      (clear_reset_catch (set_reset_catch env s).fst).snd
        = [.write32 FPB_COMP0 0, .write32 CortexM.DEMCR env.demcrValue]) ∧
    (env.resetVector = 0xFFFFFFFF →
      (clear_reset_catch (set_reset_catch env s).fst).snd
        = [.write32 DWT_COMP0 0, .write32 DWT_FUNCTION0 0,
           .write32 CortexM.DEMCR env.demcrValue]) := by
  by_cases hv : env.resetVector = 0xFFFFFFFF <;>
    refine ⟨?_, fun h => ?_, fun h => ?_⟩ <;>
      simp_all [set_reset_catch, clear_reset_catch, hd, FPB_COMP0]

/-- Witness for C8: on a concrete breakpoint-mode activation, release
clears the FPB comparator and restores DEMCR to the saved 0x12345678. -/
theorem claim_C8_witness :
    (clear_reset_catch (set_reset_catch ⟨false, 0x12345678, 0x1000, 0⟩ initialCoreState).fst).snd
      = [.write32 FPB_COMP0 0, .write32 CortexM.DEMCR 0x12345678] :=
  (claim_C8 ⟨false, 0x12345678, 0x1000, 0⟩ initialCoreState rfl).2.1 (by decide)

/-! ## C4: probe timeout handling -/

/-- Helper: when no status value within the budget has the done bit set,
the wait loop consumes the whole budget and reports failure. -/
theorem waitDone_timeout (intStatus : Nat → Nat) :
    ∀ fuel i, (∀ j, j < fuel → intStatus (i + j) &&& 0x4 = 0) →
      waitDone intStatus i fuel = (i + fuel, false) := by
  intro fuel
  induction fuel with
  | zero => intro i _; simp [waitDone]
  | succ n ih =>
    intro i h
    have h0 : intStatus i &&& 0x4 = 0 := by simpa using h 0 (Nat.succ_pos n)
    have hrest : ∀ j, j < n → intStatus (i + 1 + j) &&& 0x4 = 0 := by
      intro j hj
      have := h (j + 1) (by omega)
      simpa [Nat.add_assoc, Nat.add_comm 1 j] using this
    simp [waitDone, h0, ih (i + 1) hrest]
    omega

/-- Counterexample to C4 as stated: with a flash controller whose
interrupt status never shows the done bit within the bound, the probe
times out yet does not fail with ProbeTimeout; it returns the ordinary
answer False (not erased). -/
theorem claim_C4_counterexample :
    (is_flash_erased probeEnvStuck 0 0x200).timedOut = true ∧
    (is_flash_erased probeEnvStuck 0 0x200).result = .ok false ∧
    (is_flash_erased probeEnvStuck 0 0x200).result ≠ .error .probeTimeout := by
  refine ⟨rfl, rfl, fun h => ?_⟩
  rw [show (is_flash_erased probeEnvStuck 0 0x200).result = .ok false from rfl] at h
  exact Except.noConfusion h

/-- Claim C4 as amended: when the done bit does not appear within the
bounded wait, the probe does not fail; it proceeds to the final status
read and folds the timeout into the erasure answer, returning not erased
when that status masked with 0xB is zero and erased otherwise. -/
theorem claim_C4_amended (env : ProbeEnv) (addr length : Nat)
    (h : ∀ j, j < env.maxPolls → env.intStatus j &&& 0x4 = 0) :
    (is_flash_erased env addr length).timedOut = true ∧
    (is_flash_erased env addr length).result
      = .ok (!((env.intStatus env.maxPolls &&& 0xB) == 0)) := by
  have hw : waitDone env.intStatus 0 env.maxPolls = (env.maxPolls, false) := by
    simpa using waitDone_timeout env.intStatus env.maxPolls 0 (by simpa using h)
  constructor <;> simp [is_flash_erased, hw]

/-- Witness for the amended C4 on the stuck controller: the probe times
out and answers with the final status check. -/
theorem claim_C4_witness :
    (is_flash_erased probeEnvStuck 0 0x200).timedOut = true ∧
    (is_flash_erased probeEnvStuck 0 0x200).result = .ok (!(((0 : Nat) &&& 0xB) == 0)) :=
  claim_C4_amended probeEnvStuck 0 0x200 (fun _ _ => by simp [probeEnvStuck])

/-! ## C3: reset timeout handling -/

/-- Helper: when every DHCSR poll step within the budget keeps the loop
going, the reset-exit poll ends by timing out, with no error. -/
theorem resetWaitLoop_timeout (reads : Nat → DhcsrResult) :
    ∀ fuel i, (∀ j, j < fuel → stuckStep (reads (i + j)) = true) →
      resetWaitLoop reads i fuel = .ok .timedOut := by
  intro fuel
  induction fuel with
  | zero => intro i _; simp [resetWaitLoop]
  | succ n ih =>
    intro i h
    have h0 : stuckStep (reads i) = true := by simpa using h 0 (Nat.succ_pos n)
    have hrest : ∀ j, j < n → stuckStep (reads (i + 1 + j)) = true := by
      intro j hj
      have := h (j + 1) (by omega)
      simpa [Nat.add_assoc, Nat.add_comm 1 j] using this
    cases hr : reads i with
    | ok v =>
      have hv : ¬(v &&& CortexM.S_RESET_ST == 0) = true := by
        rw [hr] at h0; simpa [stuckStep] using h0
      simp [resetWaitLoop, hr, hv, ih (i + 1) hrest]
    | raise k =>
      have hk : TransferError.catches k = true := by
        rw [hr] at h0; simpa [stuckStep] using h0
      simp [resetWaitLoop, hr, hk, ih (i + 1) hrest]

/-- Counterexample to C3 as stated: on a core whose DHCSR never clears
S_RESET_ST within the bound, reset completes silently: it returns the
timed-out poll outcome, surfaces no ResetTimeout (nor any) error, and
still emits the POST_RESET notification. -/
theorem claim_C3_counterexample :
    (reset resetEnvStuck initialCoreState none).result = .ok .timedOut ∧
    (reset resetEnvStuck initialCoreState none).result ≠ .error .resetTimeout ∧
    Ev.notifyEvent .postReset ∈ (reset resetEnvStuck initialCoreState none).trace := by
  refine ⟨rfl, fun h => ?_, by decide⟩
  rw [show (reset resetEnvStuck initialCoreState none).result = .ok .timedOut from rfl] at h
  exact Except.noConfusion h

/-- Claim C3 as amended: for every reset in which S_RESET_ST never reads
clear within the bounded wait (each poll step either reads the bit still
set or raises an error the loop catches), the reset operation does not
surface any error: the poll ends as timed out and the reset completes,
emitting the POST_RESET notification. -/
theorem claim_C3_amended (env : ResetEnv) (s : CoreState) (rt : Option ResetType)
    (h : ∀ j, j < env.pollBudget → stuckStep (env.dhcsrReads j) = true) :
    (reset env s rt).result = .ok .timedOut ∧
    Ev.notifyEvent .postReset ∈ (reset env s rt).trace := by
  have hw : resetWaitLoop env.dhcsrReads 0 env.pollBudget = .ok .timedOut :=
    resetWaitLoop_timeout env.dhcsrReads env.pollBudget 0 (by simpa using h)
  constructor <;> simp [reset, hw]

/-- Witness for the amended C3 on the stuck core: reset completes with
the timed-out outcome and emits POST_RESET. -/
theorem claim_C3_witness :
    (reset resetEnvStuck initialCoreState none).result = .ok .timedOut ∧
    Ev.notifyEvent .postReset ∈ (reset resetEnvStuck initialCoreState none).trace :=
  claim_C3_amended resetEnvStuck initialCoreState none (fun _ _ => by simp [resetEnvStuck, stuckStep, TransferError.catches, CortexM.S_RESET_ST])

/-! ## C7: placement of the resynchronization in the reset sequence -/

/-- Claim C7: in a reset where the delegate does not intercept the
physical reset, a set flash-erased flag makes the AP resynchronization
run, after the physical reset and before both the core halt and the
did-reset delegate notification (the first five trace events in order);
a clear flag skips the resynchronization entirely. -/
theorem claim_C7 (env : ResetEnv) (s : CoreState) (rt : Option ResetType) :
    (s.flashErased = true → env.willResetHandled = false →
      (reset env s rt).trace.take 5
        = [.notifyEvent .preReset,
           .performReset (_get_actual_reset_type env.optionResetType env.defaultResetType
             (some .sw_emulated)),
           .resync, .halt,
           .didResetCall (_get_actual_reset_type env.optionResetType env.defaultResetType
             (some .sw_emulated))]) ∧
    (s.flashErased = false → Ev.resync ∉ (reset env s rt).trace) := by
  constructor
  · intro he hw
    cases hp : resetWaitLoop env.dhcsrReads 0 env.pollBudget <;>
      simp [reset, hp, he, hw]
  · intro he
    cases hp : resetWaitLoop env.dhcsrReads 0 env.pollBudget <;>
      simp [reset, hp, he]

/-- Witness for C7: on a concrete environment with the flag set, the
reset trace opens with exactly pre-reset notify, physical reset, resync,
halt, did-reset. -/
theorem claim_C7_witness :
    (reset resetEnvStuck initialCoreState none).trace.take 5
      = [.notifyEvent .preReset,
         .performReset (_get_actual_reset_type resetEnvStuck.optionResetType
           resetEnvStuck.defaultResetType (some .sw_emulated)),
         .resync, .halt,
         .didResetCall (_get_actual_reset_type resetEnvStuck.optionResetType
           resetEnvStuck.defaultResetType (some .sw_emulated))] :=
  (claim_C7 resetEnvStuck initialCoreState none).1 rfl rfl

/-! ## C9: the reset_type argument is ignored -/

/-- Claim C9: the reset_type argument has no effect on a reset: the body
overwrites the requested type with the emulated software reset before
resolving the actual mechanism, so two calls with different arguments
produce identical results, states and traces, and (when the delegate does
not intercept) the physical reset performed is the emulated software
reset whatever the session option and core default say. -/
theorem claim_C9 (env : ResetEnv) (s : CoreState) (rt1 rt2 : Option ResetType) :
    reset env s rt1 = reset env s rt2 ∧
    (env.willResetHandled = false →
      Ev.performReset .sw_emulated ∈ (reset env s rt1).trace) := by
  refine ⟨rfl, fun hw => ?_⟩
  cases hp : resetWaitLoop env.dhcsrReads 0 env.pollBudget <;>
    simp [reset, hp, hw, _get_actual_reset_type]

/-- Witness for C9: a reset asked for as a hardware reset and one asked
for as SYSRESETREQ coincide, and the reset actually performed is the
emulated software reset. -/
theorem claim_C9_witness :
    reset resetEnvStuck initialCoreState (some .hw)
      = reset resetEnvStuck initialCoreState (some .sw_sysresetreq) ∧
    Ev.performReset .sw_emulated ∈ (reset resetEnvStuck initialCoreState (some .hw)).trace :=
  ⟨(claim_C9 resetEnvStuck initialCoreState (some .hw) (some .sw_sysresetreq)).1,
   (claim_C9 resetEnvStuck initialCoreState (some .hw) (some .sw_sysresetreq)).2 rfl⟩

/-! ## C10: lifecycle of the flash-erased flag -/

/-- Claim C10: a freshly created core has its flash-erased flag true, so
a reset requested before any reset-catch activation runs the AP
resynchronization; and the flag is updated only inside a reset-catch
activation the delegate does not handle, where it becomes exactly
whether the reset-vector slot read the erased sentinel: reset and
release both leave the flag untouched, as does a delegate-handled
activation. -/
theorem claim_C10 (envR : ResetEnv) (envC : CatchEnv) (s : CoreState) (rt : Option ResetType) :
    initialCoreState.flashErased = true ∧
    (s.flashErased = true → Ev.resync ∈ (reset envR s rt).trace) ∧
    (reset envR s rt).state.flashErased = s.flashErased ∧
    (clear_reset_catch s).fst.flashErased = s.flashErased ∧
    (envC.delegateHandled = false →
      (set_reset_catch envC s).fst.flashErased = (envC.resetVector == 0xFFFFFFFF)) ∧
    (envC.delegateHandled = true →
      (set_reset_catch envC s).fst.flashErased = s.flashErased) := by
  refine ⟨rfl, fun he => ?_, ?_, ?_, fun hd => ?_, fun hd => ?_⟩
  · cases hp : resetWaitLoop envR.dhcsrReads 0 envR.pollBudget <;> simp [reset, hp, he]
  · cases hp : resetWaitLoop envR.dhcsrReads 0 envR.pollBudget <;> simp [reset, hp]
  · by_cases h : s.delegateResult <;> simp [clear_reset_catch, h]
  · by_cases hv : envC.resetVector = 0xFFFFFFFF <;> simp [set_reset_catch, hd, hv]
  · simp [set_reset_catch, hd]

/-- Witness for C10: a fresh core has the flag set, and its first reset
(before any activation) runs the resynchronization. -/
theorem claim_C10_witness :
    initialCoreState.flashErased = true ∧
    Ev.resync ∈ (reset resetEnvStuck initialCoreState none).trace :=
  ⟨(claim_C10 resetEnvStuck ⟨false, 0, 0, 0⟩ initialCoreState none).1,
   (claim_C10 resetEnvStuck ⟨false, 0, 0, 0⟩ initialCoreState none).2.1 rfl⟩

/-! ## C5: the resynchronization protocol on a recovering AP -/

/-- Helper: a pollReg loop whose first success satisfying done comes at
read index K, every earlier step being a retried one, terminates with
exactly K + 1 reads, given enough fuel. -/
theorem pollReg_done (reads : Nat → RegResult) (retried : ErrKind → Bool) (done : Nat → Bool)
    (K v : Nat) (hK : reads K = .ok v) (hv : done v = true)
    (hpre : ∀ j, j < K → continuesStep retried done (reads j) = true) :
    ∀ fuel i, i ≤ K → K < i + fuel →
      pollReg reads retried done i fuel = some (.ok (K + 1)) := by
  intro fuel
  induction fuel with
  | zero => intro i h1 h2; omega
  | succ n ih =>
    intro i h1 h2
    rcases Nat.lt_or_ge i K with hi | hi
    · have hc := hpre i hi
      cases hr : reads i with
      | ok w =>
        have hw : done w = false := by rw [hr] at hc; simpa [continuesStep] using hc
        simp only [pollReg, hr, hw, Bool.false_eq_true, if_false]
        exact ih (i + 1) (by omega) (by omega)
      | raise k =>
        have hk : retried k = true := by rw [hr] at hc; simpa [continuesStep] using hc
        simp only [pollReg, hr, hk, if_true]
        exact ih (i + 1) (by omega) (by omega)
    · have hiK : i = K := by omega
      subst hiK
      simp [pollReg, hK, hv]

/-- Helper: a run of readReg events holds no command-register write. -/
theorem filter_cmd_replicate (n off : Nat) :
    (List.replicate n (Ev.readReg off)).filter isCmdWrite = [] := by
  induction n with
  | zero => rfl
  | succ m ih => simp [List.replicate_succ, List.filter_cons, isCmdWrite, ih]

/-- Claim C5: against an AP whose status register reaches the quiescent
sentinel 0x002A0000 on its K-th read (earlier reads returning other
values or raising fault-class errors), whose command register reads zero
on its M-th read (earlier reads nonzero or timeout-class errors), and
whose session status reaches zero on its L-th read likewise, the
protocol terminates successfully; it polls the status register exactly K
times, its only command-register write is the single 0x21, and the
command-register polls all happen between that write and the session
start request (the write of 0x07 to register 0x04). -/
theorem claim_C5 (env : ResyncEnv) (K M L f1 f2 f3 : Nat)
    (hK1 : 1 ≤ K) (hM1 : 1 ≤ M) (hL1 : 1 ≤ L)
    (hf1 : K ≤ f1) (hf2 : M ≤ f2) (hf3 : L ≤ f3)
    (hsent : env.statusReads (K - 1) = .ok 0x002A0000)
    (hpreS : ∀ j, j < K - 1 →
      continuesStep (fun k => k == .fault) (fun v => v == 0x002A0000) (env.statusReads j) = true)
    (hack : env.ackReads (M - 1) = .ok 0)
    (hpreA : ∀ j, j < M - 1 →
      continuesStep (fun k => k == .timeoutErr) (fun v => v == 0) (env.ackReads j) = true)
    (hses : env.sessionReads (L - 1) = .ok 0)
    (hpreL : ∀ j, j < L - 1 →
      continuesStep (fun k => k == .timeoutErr) (fun v => (v &&& 0xFFFF) == 0)
        (env.sessionReads j) = true) :
    (resynchronize_dm_ap env f1 f2 f3).result = some (.ok ()) ∧
    (resynchronize_dm_ap env f1 f2 f3).trace
      = List.replicate K (Ev.readReg 0xFC)
        ++ Ev.writeReg 0x00 0x21
        :: (List.replicate M (Ev.readReg 0x00)
            ++ Ev.writeReg 0x04 0x07 :: List.replicate L (Ev.readReg 0x08)) ∧
    ((resynchronize_dm_ap env f1 f2 f3).trace.filter isCmdWrite) = [Ev.writeReg 0x00 0x21] := by
  have h1 : awaitQuiescent env.statusReads 0 f1 = some (.ok K) := by
    have h := pollReg_done env.statusReads (fun k => k == .fault) (fun v => v == 0x002A0000)
      (K - 1) 0x002A0000 hsent (by simp) hpreS f1 0 (by omega) (by omega)
    rw [Nat.sub_add_cancel hK1] at h
    exact h
  have h2 : awaitAck env.ackReads 0 f2 = some (.ok M) := by
    have h := pollReg_done env.ackReads (fun k => k == .timeoutErr) (fun v => v == 0)
      (M - 1) 0 hack (by simp) hpreA f2 0 (by omega) (by omega)
    rw [Nat.sub_add_cancel hM1] at h
    exact h
  have h3 : awaitSessionReady env.sessionReads 0 f3 = some (.ok L) := by
    have h := pollReg_done env.sessionReads (fun k => k == .timeoutErr)
      (fun v => (v &&& 0xFFFF) == 0) (L - 1) 0 hses (by simp) hpreL f3 0 (by omega) (by omega)
    rw [Nat.sub_add_cancel hL1] at h
    exact h
  refine ⟨?_, ?_, ?_⟩
  · simp [resynchronize_dm_ap, start_debug_session, h1, h2, h3]
  · simp [resynchronize_dm_ap, start_debug_session, h1, h2, h3]
  · simp [resynchronize_dm_ap, start_debug_session, h1, h2, h3,
      List.filter_append, List.filter_cons, filter_cmd_replicate, isCmdWrite]

/-- Witness for C5: on the concrete recovering AP (sentinel on the third
status read after two faults, ack on the second command read, session
ready at once) the protocol completes with the expected trace. -/
theorem claim_C5_witness :
    (resynchronize_dm_ap resyncEnvOk 3 2 1).result = some (.ok ()) ∧
    (resynchronize_dm_ap resyncEnvOk 3 2 1).trace
      = List.replicate 3 (Ev.readReg 0xFC)
        ++ Ev.writeReg 0x00 0x21
        :: (List.replicate 2 (Ev.readReg 0x00)
            ++ Ev.writeReg 0x04 0x07 :: List.replicate 1 (Ev.readReg 0x08)) ∧
    ((resynchronize_dm_ap resyncEnvOk 3 2 1).trace.filter isCmdWrite)
      = [Ev.writeReg 0x00 0x21] :=
  claim_C5 resyncEnvOk 3 2 1 3 2 1 (by decide) (by decide) (by decide)
    (by decide) (by decide) (by decide)
    (by decide) (by decide) (by decide) (by decide) (by decide) (by decide)

/-! ## C6: per-loop retryable error classes -/

/-- Claim C6: at any step of any of the four polling loops, only the
documented transient class for that loop is caught and retried: the
await-quiescent loop retries exactly fault-class errors, the await-ack
and await-session-ready loops retry exactly timeout-class errors, and
the reset-exit poll retries exactly its documented (fault) class; an
error of any other kind ends the loop immediately with that error. -/
theorem claim_C6 (reads : Nat → RegResult) (dreads : Nat → DhcsrResult)
    (i fuel : Nat) (k : ErrKind) :
    (reads i = .raise k →
      ((k = .fault →
          awaitQuiescent reads i (fuel + 1) = awaitQuiescent reads (i + 1) fuel) ∧
       (k ≠ .fault →
          awaitQuiescent reads i (fuel + 1) = some (.error (i + 1, k)))) ∧
      ((k = .timeoutErr →
          awaitAck reads i (fuel + 1) = awaitAck reads (i + 1) fuel) ∧
       (k ≠ .timeoutErr →
          awaitAck reads i (fuel + 1) = some (.error (i + 1, k)))) ∧
      ((k = .timeoutErr →
          awaitSessionReady reads i (fuel + 1) = awaitSessionReady reads (i + 1) fuel) ∧
       (k ≠ .timeoutErr →
          awaitSessionReady reads i (fuel + 1) = some (.error (i + 1, k))))) ∧
    (dreads i = .raise k →
      (k = .fault →
        resetWaitLoop dreads i (fuel + 1) = resetWaitLoop dreads (i + 1) fuel) ∧
      (k ≠ .fault → resetWaitLoop dreads i (fuel + 1) = .error k)) := by
  constructor
  · intro hr
    refine ⟨⟨fun hk => ?_, fun hk => ?_⟩, ⟨fun hk => ?_, fun hk => ?_⟩,
      ⟨fun hk => ?_, fun hk => ?_⟩⟩
    · subst hk; simp [awaitQuiescent, pollReg, hr]
    · have hne : (k == ErrKind.fault) = false := by cases k <;> simp_all
      simp [awaitQuiescent, pollReg, hr, hne]
    · subst hk; simp [awaitAck, pollReg, hr]
    · have hne : (k == ErrKind.timeoutErr) = false := by cases k <;> simp_all
      simp [awaitAck, pollReg, hr, hne]
    · subst hk; simp [awaitSessionReady, pollReg, hr]
    · have hne : (k == ErrKind.timeoutErr) = false := by cases k <;> simp_all
      simp [awaitSessionReady, pollReg, hr, hne]
  · intro hr
    refine ⟨fun hk => ?_, fun hk => ?_⟩
    · subst hk; simp [resetWaitLoop, hr, TransferError.catches]
    · have hne : (k == ErrKind.fault) = false := by cases k <;> simp_all
      simp [resetWaitLoop, hr, TransferError.catches, hne]

/-- Witness for C6: an other-class error aborts the await-quiescent loop
at once, and a timeout-class error aborts the reset-exit poll at once. -/
theorem claim_C6_witness :
    awaitQuiescent (fun _ => .raise .other) 0 6 = some (.error (1, .other)) ∧
    resetWaitLoop (fun _ => .raise .timeoutErr) 0 6 = .error .timeoutErr :=
  ⟨((claim_C6 (fun _ => .raise .other) (fun _ => .raise .other) 0 5 .other).1 rfl).1.2
      (by decide),
   ((claim_C6 (fun _ => .raise .timeoutErr) (fun _ => .raise .timeoutErr) 0 5 .timeoutErr).2
      rfl).2 (by decide)⟩

end LPC5500
